import Mathlib

/-!
# Shallow embedding of the docker-instance-manager Instance Orchestrator

Definitions are translated from the Python source:
  * `src/core/services/docker_manager.py` (`DockerManager`)
  * `src/core/services/port_manager.py` (`PortManager`)
  * `src/core/tasks.py` (the four Celery lifecycle tasks)
  * `src/core/views.py` (`instance_status_api`)
  * `src/core/models.py` (the `Template` / `Instance` / `AuditLog` shapes)

Python dicts are modelled as key-unique association lists preserving
insertion order (`dictInsert` mirrors `d[k] = v`, `dictUpdate` mirrors
`d.update(src)`).  Engine calls performed by a task are parameterized by
their results (`Except`-typed, matching the driver's uniform
success/error tuples) and recorded in an event trace, so that statements
about "performs no engine call" and "emits no audit event" are
equations on the trace.  Randomness in the port allocator is modelled
by an oracle `rng : Nat → Nat` indexed by draw counter; theorems about
the allocator quantify over every oracle.  Float-valued resource limits
(`cpu_limit`, `memory_limit` pass-throughs) are not needed by any claim
and are left out of the container-run call record.
-/

/-- Python truthiness of an optional string field (`None` and `""` are falsy),
as used by guards like `if volume_name:` and `if not instance.container_id:`. -/
def truthy : Option String → Bool
  | none => false
  | some s => !s.isEmpty

/-- `d[k] = v` on a Python dict modelled as an insertion-ordered,
key-unique association list: replace in place if the key is present
(dicts hold each key once, so at most one entry matches), otherwise
append. -/
def dictInsert {α : Type} : List (String × α) → String → α → List (String × α)
  | [], k, v => [(k, v)]
  | p :: rest, k, v =>
      if p.1 = k then (k, v) :: rest else p :: dictInsert rest k v

/-- `d.update(src)`: insert every pair of `src` into `d`, in order. -/
def dictUpdate {α : Type} (d src : List (String × α)) : List (String × α) :=
  src.foldl (fun acc kv => dictInsert acc kv.1 kv.2) d

/-- `core.models.Template` — the fields read by the embedded operations.
`default_ports` maps logical service name to container-internal port,
`volume_mounts` maps logical volume name to container-internal path. -/
structure Template where
  name : String
  docker_image : String
  default_ports : List (String × Nat)
  environment_vars : List (String × String)
  volume_mounts : List (String × String)
  deriving DecidableEq, Repr

/-- `core.models.Instance` — the fields read and written by the embedded
operations.  `username` stands for `instance.user.username`. -/
structure Instance where
  id : Nat
  username : String
  template : Template
  name : String
  container_id : Option String
  host_ports : List (String × Nat)
  status : String
  error_message : String
  environment_vars : List (String × String)
  volume_name : Option String
  deriving DecidableEq, Repr

/-- One observable side effect of a lifecycle operation: a call into the
container engine, or an `AuditLog.objects.create` write. -/
inductive Event where
  | allocatePorts
  | createVolume (volume_name : String)
  | startContainer (container_name : String)
  | stopContainer (container_id : String)
  | restartContainer (container_id : String)
  | deleteContainer (container_id : String)
  | deleteVolume (volume_name : String)
  | engineStatusQuery (container_id : String)
  | audit (action : String) (details : String)
  deriving DecidableEq, Repr

/-- Whether an event is an Audit Event write. -/
def Event.isAudit : Event → Bool
  | .audit _ _ => true
  | _ => false

/-- The dict a task returns: `{'success': True, 'container_id': ...}`,
`{'success': True}` or `{'success': False, 'error': msg}`. -/
inductive TaskResult where
  | ok (container_id : Option String)
  | err (error : String)
  deriving DecidableEq, Repr

/-! ## `DockerManager.start_container` (src/core/services/docker_manager.py)

The pure computation performed before the single `containers.run` engine
call: the port-binding table, the environment merge, and the volume
mount table. -/

/-- The port-binding loop of `start_container`:
`port_bindings[f"{container_port}/tcp"] = host_ports[service_name]`
for every service name present on both sides. -/
def build_port_bindings (default_ports : List (String × Nat))
    (host_ports : List (String × Nat)) : List (String × Nat) :=
  default_ports.foldl
    (fun bindings p =>
      match host_ports.lookup p.1 with
      | some hp => dictInsert bindings (toString p.2 ++ "/tcp") hp
      | none => bindings)
    []

/-- The environment merge of `start_container`:
`env_vars = {}`, `env_vars.update(template.environment_vars)` when that
dict is non-empty, then `env_vars.update(environment_vars)` when the
instance dict is non-empty. -/
def merge_env (template_env instance_env : List (String × String)) :
    List (String × String) :=
  let env1 := if template_env.isEmpty then [] else dictUpdate [] template_env
  if instance_env.isEmpty then env1 else dictUpdate env1 instance_env

/-- The volume-mount loop of `start_container`: `volumes` stays `None`
unless `volume_name` is truthy and `template.volume_mounts` is non-empty;
then for each declared container path the code runs
`volumes[volume_name] = {'bind': container_path, 'mode': 'rw'}` —
note the dict key is the (constant) volume name.  Each entry is
`(volumeName, (bindPath, mode))`. -/
def build_volumes (volume_name : Option String)
    (volume_mounts : List (String × String)) :
    Option (List (String × (String × String))) :=
  if truthy volume_name ∧ ¬ volume_mounts.isEmpty then
    some (volume_mounts.foldl
      (fun vols kv => dictInsert vols (volume_name.getD "") (kv.2, "rw"))
      [])
  else
    none

/-- The bind targets of a volume table: the container paths actually
mounted. -/
def bindTargets (volumes : Option (List (String × (String × String)))) :
    List String :=
  (volumes.getD []).map (fun e => e.2.1)

/-- The argument record of the `containers.run` engine call built by
`start_container` (resource-limit fields are float pass-throughs unused
by every claim and omitted). -/
structure RunCall where
  image : String
  ports : List (String × Nat)
  environment : Option (List String)
  name : Option String
  volumes : Option (List (String × (String × String)))
  deriving DecidableEq, Repr

/-- `DockerManager.start_container` up to the engine call: the `RunCall`
it hands to `containers.run`. -/
def start_container (template : Template) (host_ports : List (String × Nat))
    (environment_vars : List (String × String)) (name : Option String)
    (volume_name : Option String) : RunCall :=
  let env_vars := merge_env template.environment_vars environment_vars
  { image := template.docker_image
    ports := build_port_bindings template.default_ports host_ports
    environment :=
      if env_vars.isEmpty then none
      else some (env_vars.map (fun kv => kv.1 ++ "=" ++ kv.2))
    name := name
    volumes := build_volumes volume_name template.volume_mounts }

/-! ## `PortManager` (src/core/services/port_manager.py)

`get_used_ports()` is a read of the Instance table; both entry points
take its result (`used : Finset Nat`, the held-port set) as a
parameter.  `random.randint` / `random.shuffle` / `random.choice` are
driven by an oracle `rng : Nat → Nat` consumed one value per draw. -/

/-- The two exceptions `allocate_ports` can raise: the `ValueError`
of the exhaustion check (the allocator's exhaustion error, carrying
`need = len(port_mapping)` and `avail = total_range - len(used_ports)`),
and the `IndexError` of `remaining_ports[0]` on an empty list. -/
inductive PortError where
  | exhausted (need : Nat) (avail : Int)
  | indexError
  deriving DecidableEq, Repr

/-- `random.randint(a, b)`: a value in `[a, b]` (for `a ≤ b`), drawn
here from one oracle value `r`. -/
def randint (a b r : Nat) : Nat :=
  a + r % (b - a + 1)

/-- The inner `for _ in range(max_attempts)` loop of `allocate_ports`:
draw a random port, accept it if it is neither held nor already chosen
in this call; `none` after `fuel` failed attempts.  Returns the chosen
port together with the advanced draw counter. -/
def tryRandomPort (startP endP : Nat) (used : Finset Nat)
    (allocatedVals : List Nat) (rng : Nat → Nat) :
    Nat → Nat → Option (Nat × Nat)
  | 0, _ => none
  | fuel + 1, k =>
    let port := randint startP endP (rng k)
    if port ∉ used ∧ port ∉ allocatedVals then
      some (port, k + 1)
    else
      tryRandomPort startP endP used allocatedVals rng fuel (k + 1)

/-- The outer loop of `allocate_ports` over the service names, threading
the association list of allocations made so far and the draw counter.
`origN = len(port_mapping)` as used by the exhaustion check.  The
fallback materializes `available = range \ used`, removes the ports
already chosen, and picks one element of the remainder (shuffle then
`[0]`, modelled as an oracle-indexed pick from the sorted list). -/
def allocGo (startP endP : Nat) (used : Finset Nat) (origN : Nat)
    (rng : Nat → Nat) :
    List String → List (String × Nat) → Nat →
    Except PortError (List (String × Nat))
  | [], acc, _ => .ok acc
  | service_name :: rest, acc, k =>
    match tryRandomPort startP endP used (acc.map Prod.snd) rng 100 k with
    | some (port, k') =>
        allocGo startP endP used origN rng rest (acc ++ [(service_name, port)]) k'
    | none =>
        let total_range := endP - startP + 1
        if used.card + origN > total_range then
          .error (.exhausted origN ((total_range : Int) - (used.card : Int)))
        else
          let available := Finset.Icc startP endP \ used
          let remaining :=
            (available \ (acc.map Prod.snd).toFinset).sort (· ≤ ·)
          match remaining.get? (rng k % remaining.length) with
          | some port =>
              allocGo startP endP used origN rng rest
                (acc ++ [(service_name, port)]) (k + 1)
          | none => .error .indexError

/-- `PortManager.allocate_ports(port_mapping)` with the held-port set
passed in: allocate one random host port per service name of
`port_mapping`, or raise. -/
def allocate_ports (startP endP : Nat) (used : Finset Nat)
    (port_mapping : List (String × Nat)) (rng : Nat → Nat) :
    Except PortError (List (String × Nat)) :=
  allocGo startP endP used port_mapping.length rng
    (port_mapping.map Prod.fst) [] 0

/-- `PortManager.get_available_port()` with the held-port set passed in:
`available = range \ used`; raise `ValueError` when empty, otherwise
`random.choice` of the available ports (oracle-indexed pick). -/
def get_available_port (startP endP : Nat) (used : Finset Nat)
    (r : Nat) : Except String Nat :=
  let available := Finset.Icc startP endP \ used
  if available = ∅ then
    .error "No available ports in the configured range"
  else
    let l := available.sort (· ≤ ·)
    match l.get? (r % l.length) with
    | some p => .ok p
    | none => .error "IndexError"

/-! ## Celery lifecycle tasks (src/core/tasks.py)

Each task is a function of the instance record (`Option Instance`,
`none` once the row is deleted or was never there — `Instance.objects.get`
then raises `ObjectDoesNotExist`) and of the results of the driver calls
it makes, returning the new record, the task's result dict, and the
event trace. -/

/-- The driver-call results `create_instance_task` can observe:
the `allocate_ports` outcome (`ValueError` message on failure), the
`create_volume` tuple, and the `start_container` tuple. -/
structure CreateEnv where
  allocResult : Except String (List (String × Nat))
  createVolumeResult : Except String String
  startResult : Except String String
  deriving Repr

/-- The tail of `create_instance_task` from the `start_container` call on:
build the container name, start, and either persist the engine id with
status `running`, a cleared error message and a `create` audit write, or
persist status `error` with the driver's message. -/
def createStartStep (inst : Instance) (env : CreateEnv) (evs : List Event) :
    Option Instance × TaskResult × List Event :=
  let container_name :=
    inst.username ++ "_" ++ inst.template.name ++ "_" ++ toString inst.id
  let evs := evs ++ [Event.startContainer container_name]
  match env.startResult with
  | .ok container_id =>
      let inst' := { inst with
        container_id := some container_id
        status := "running"
        error_message := "" }
      (some inst', .ok (some container_id),
        evs ++ [Event.audit "create"
          ("Started container " ++ container_id.take 12)])
  | .error error_msg =>
      (some { inst with status := "error", error_message := error_msg },
        .err error_msg, evs)

/-- `create_instance_task`: allocate ports (persisting them immediately
on success), create the persistent volume when the template declares
mounts, then start the container. -/
def create_instance_task (db : Option Instance) (env : CreateEnv) :
    Option Instance × TaskResult × List Event :=
  match db with
  | none => (none, .err "Instance not found", [])
  | some inst =>
    let template := inst.template
    match env.allocResult with
    | .error e =>
        (some { inst with
            status := "error"
            error_message := "Port allocation failed: " ++ e },
          .err e, [Event.allocatePorts])
    | .ok host_ports =>
        let inst1 := { inst with host_ports := host_ports }
        if template.volume_mounts.isEmpty then
          createStartStep inst1 env [Event.allocatePorts]
        else
          let volume_name :=
            inst.username ++ "_" ++ template.name ++ "_" ++
              toString inst.id ++ "_data"
          match env.createVolumeResult with
          | .ok _ =>
              createStartStep { inst1 with volume_name := some volume_name }
                env [Event.allocatePorts, Event.createVolume volume_name]
          | .error vol_error =>
              (some { inst1 with
                  status := "error"
                  error_message := "Volume creation failed: " ++ vol_error },
                .err vol_error,
                [Event.allocatePorts, Event.createVolume volume_name])

/-- The `stop_container` driver result seen by `stop_instance_task`. -/
structure StopEnv where
  stopResult : Except String Unit
  deriving Repr

/-- `stop_instance_task`: require a truthy `container_id`, call
`stop_container`; on success set status `stopped` and write a `stop`
audit event; on failure record only the error message. -/
def stop_instance_task (db : Option Instance) (env : StopEnv) :
    Option Instance × TaskResult × List Event :=
  match db with
  | none => (none, .err "Instance not found", [])
  | some inst =>
    if ¬ truthy inst.container_id then
      (some inst, .err "No container ID found", [])
    else
      let cid := inst.container_id.getD ""
      match env.stopResult with
      | .ok _ =>
          (some { inst with status := "stopped" }, .ok none,
            [Event.stopContainer cid,
             Event.audit "stop" ("Stopped container " ++ cid.take 12)])
      | .error error_msg =>
          (some { inst with error_message := error_msg }, .err error_msg,
            [Event.stopContainer cid])

/-- The `restart_container` driver result seen by `restart_instance_task`. -/
structure RestartEnv where
  restartResult : Except String Unit
  deriving Repr

/-- `restart_instance_task`: require a truthy `container_id`, call
`restart_container`; on success set status `running`, clear the error
message, and write a `start` audit event; on failure record only the
error message. -/
def restart_instance_task (db : Option Instance) (env : RestartEnv) :
    Option Instance × TaskResult × List Event :=
  match db with
  | none => (none, .err "Instance not found", [])
  | some inst =>
    if ¬ truthy inst.container_id then
      (some inst, .err "No container ID found", [])
    else
      let cid := inst.container_id.getD ""
      match env.restartResult with
      | .ok _ =>
          (some { inst with status := "running", error_message := "" },
            .ok none,
            [Event.restartContainer cid,
             Event.audit "start" ("Restarted container " ++ cid.take 12)])
      | .error error_msg =>
          (some { inst with error_message := error_msg }, .err error_msg,
            [Event.restartContainer cid])

/-- What `delete_instance_task` can observe from its collaborators:
the two driver results (both only logged on failure) and whether the
audit `try` block succeeds (`User.objects.get(id=user_id)` resolving AND
the `AuditLog.objects.create` write going through; any exception there
is swallowed by `except: pass`). -/
structure DeleteEnv where
  deleteContainerResult : Except String Unit
  deleteVolumeResult : Except String Unit
  userFound : Bool
  auditWriteOk : Bool
  deriving Repr

/-- The audit detail string built by `delete_instance_task`. -/
def deleteDetails (inst : Instance) (delete_volume : Bool) : String :=
  let nameOr := if inst.name.isEmpty then toString inst.id else inst.name
  let cidPart :=
    if truthy inst.container_id then (inst.container_id.getD "").take 12
    else "N/A"
  let base := "Deleted instance " ++ nameOr ++ " with container " ++ cidPart
  if truthy inst.volume_name ∧ ¬ delete_volume then
    base ++ " (preserved volume " ++ inst.volume_name.getD "" ++ ")"
  else if truthy inst.volume_name ∧ delete_volume then
    base ++ " (deleted volume " ++ inst.volume_name.getD "" ++ ")"
  else
    base

/-- `delete_instance_task`: force-delete the container when an engine id
is recorded (failure only logged), delete the volume when requested and
present (failure only logged), best-effort audit write, then remove the
Instance row and report success. -/
def delete_instance_task (db : Option Instance) (env : DeleteEnv)
    (delete_volume : Bool) : Option Instance × TaskResult × List Event :=
  match db with
  | none => (none, .err "Instance not found", [])
  | some inst =>
    let ev1 :=
      if truthy inst.container_id then
        [Event.deleteContainer (inst.container_id.getD "")]
      else []
    let ev2 :=
      if delete_volume ∧ truthy inst.volume_name then
        [Event.deleteVolume (inst.volume_name.getD "")]
      else []
    let ev3 :=
      if env.userFound ∧ env.auditWriteOk then
        [Event.audit "delete" (deleteDetails inst delete_volume)]
      else []
    (none, .ok none, ev1 ++ ev2 ++ ev3)

/-! ## `instance_status_api` (src/core/views.py) -/

/-- The Docker→domain status table of `instance_status_api`. -/
def status_map : List (String × String) :=
  [("running", "running"),
   ("exited", "stopped"),
   ("created", "pending"),
   ("restarting", "pending"),
   ("paused", "stopped"),
   ("dead", "error"),
   ("not_found", "error")]

/-- `status_map.get(docker_status, 'error')`. -/
def mapDockerStatus (docker_status : String) : String :=
  (status_map.lookup docker_status).getD "error"

/-- `Instance.get_service_urls` (src/core/models.py). -/
def get_service_urls (inst : Instance) : List (String × String) :=
  inst.host_ports.map
    (fun p => (p.1, "http://localhost:" ++ toString p.2))

/-- The JSON body returned by `instance_status_api`. -/
structure StatusResponse where
  status : String
  error_message : String
  service_urls : List (String × String)
  deriving DecidableEq, Repr

/-- `instance_status_api` for an existing instance: when the instance
has a truthy `container_id` and its stored status is not `error`, query
the engine (`engine` maps container id to Docker status), map the answer
through `status_map` (default `error`), and persist the mapped status on
mismatch; then answer with status, error message and service URLs. -/
def instance_status_api (inst : Instance) (engine : String → String) :
    Instance × StatusResponse × List Event :=
  if truthy inst.container_id ∧ inst.status ≠ "error" then
    let cid := inst.container_id.getD ""
    let docker_status := engine cid
    let mapped_status := mapDockerStatus docker_status
    let inst' :=
      if inst.status ≠ mapped_status then { inst with status := mapped_status }
      else inst
    (inst',
      { status := inst'.status
        error_message := inst'.error_message
        service_urls := get_service_urls inst' },
      [Event.engineStatusQuery cid])
  else
    (inst,
      { status := inst.status
        error_message := inst.error_message
        service_urls := get_service_urls inst },
      [])

/-! ## Concrete fixtures -/

/-- A template with two declared volume mount paths (the example of the
`volume_mounts` help text in `core/models.py`). -/
def c1Template : Template :=
  { name := "code", docker_image := "img/code:latest",
    default_ports := [], environment_vars := [],
    volume_mounts :=
      [("/workspace", "/home/coder/project"), ("/data", "/var/lib/data")] }

/-- A template with one exposed service and no volume mounts. -/
def egTemplate : Template :=
  { name := "jupyter", docker_image := "img/jupyter:latest",
    default_ports := [("web", 8080)], environment_vars := [],
    volume_mounts := [] }

/-- An instance already in status `running` with its container and ports
recorded — the target of a re-delivered create task. -/
def c2Instance : Instance :=
  { id := 1, username := "alice", template := egTemplate, name := "dev",
    container_id := some "oldcontainer123", host_ports := [("web", 10000)],
    status := "running", error_message := "", environment_vars := [],
    volume_name := none }

/-- Driver results observed by the re-delivered create task: the
allocator hands out a fresh port and the engine starts a fresh
container. -/
def c2Env : CreateEnv :=
  { allocResult := .ok [("web", 10001)],
    createVolumeResult := .ok "unused",
    startResult := .ok "newcontainer456" }

/-! ## Claim theorems -/

/-- **C1** — the claim says `startContainer` binds the volume read-write
at *every* declared container path.  The code keys the volume dict by
the (constant) volume name, so each loop iteration overwrites the
previous one: on the two-path template only the last declared path
`/var/lib/data` is bound and `/home/coder/project` is dropped, while
the code's own log line claims to mount at all declared paths. -/
theorem volume_mount_binds_only_last_path :
    (start_container c1Template [] [] none (some "alice_code_7_data")).volumes =
      some [("alice_code_7_data", ("/var/lib/data", "rw"))] ∧
    build_volumes (some "alice_code_7_data") c1Template.volume_mounts =
      some [("alice_code_7_data", ("/var/lib/data", "rw"))] ∧
    bindTargets (build_volumes (some "alice_code_7_data")
        c1Template.volume_mounts) = ["/var/lib/data"] ∧
    "/home/coder/project" ∉ bindTargets (build_volumes (some "alice_code_7_data")
        c1Template.volume_mounts) ∧
    c1Template.volume_mounts.map Prod.snd =
      ["/home/coder/project", "/var/lib/data"] := by
  decide

/-- **C2** — the claim says a create re-invoked on an instance already
`running` is a no-op guarded by a status check.  `create_instance_task`
never reads `instance.status`: on a `running` instance it re-allocates
ports (overwriting `host_ports`), starts a second container, overwrites
`container_id`, and writes a second `create` audit event. -/
theorem create_task_not_noop_on_running :
    c2Instance.status = "running" ∧
    create_instance_task (some c2Instance) c2Env =
      (some { c2Instance with
          host_ports := [("web", 10001)],
          container_id := some "newcontainer456",
          status := "running",
          error_message := "" },
       .ok (some "newcontainer456"),
       [Event.allocatePorts, Event.startContainer "alice_jupyter_1",
        Event.audit "create" "Started container newcontainer"]) ∧
    (create_instance_task (some c2Instance) c2Env).1 ≠ some c2Instance := by
  decide

/-- **C6** — delete is idempotent: the first invocation on an existing
record succeeds and removes the record; the second invocation, finding
the record gone, makes no engine call, writes no audit event (its trace
is empty) and reports the instance as not found. -/
theorem delete_task_idempotent (inst : Instance) (env1 env2 : DeleteEnv)
    (dv1 dv2 : Bool) :
    (delete_instance_task (some inst) env1 dv1).1 = none ∧
    (delete_instance_task (some inst) env1 dv1).2.1 = .ok none ∧
    delete_instance_task none env2 dv2 =
      (none, .err "Instance not found", []) := by
  exact ⟨rfl, rfl, rfl⟩

/-- **C7** — stop without an engine id fails with the "no container"
error and leaves the record untouched; a stop whose driver call fails
records only the error message (status field unchanged) and surfaces
the message to the caller. -/
theorem stop_failure_leaves_status_unchanged (inst inst2 : Instance)
    (env env2 : StopEnv) (msg : String)
    (h : truthy inst.container_id = false)
    (h2 : truthy inst2.container_id = true)
    (h3 : env2.stopResult = .error msg) :
    stop_instance_task (some inst) env =
      (some inst, .err "No container ID found", []) ∧
    stop_instance_task (some inst2) env2 =
      (some { inst2 with error_message := msg }, .err msg,
       [Event.stopContainer (inst2.container_id.getD "")]) ∧
    ({ inst2 with error_message := msg } : Instance).status = inst2.status := by
  refine ⟨?_, ?_, rfl⟩
  · simp [stop_instance_task, h]
  · simp [stop_instance_task, h2, h3]

/-- **C8** — audit recording never fails the delete operation: whether
the actor lookup fails or the audit write itself fails, the task still
removes the Instance record, reports success, and simply writes no
audit event. -/
theorem delete_audit_never_blocks (inst : Instance)
    (dcr dvr : Except String Unit) (uf ao dv : Bool) :
    ((delete_instance_task (some inst) ⟨dcr, dvr, false, ao⟩ dv).1 = none ∧
     (delete_instance_task (some inst) ⟨dcr, dvr, false, ao⟩ dv).2.1 = .ok none ∧
     ((delete_instance_task (some inst) ⟨dcr, dvr, false, ao⟩ dv).2.2.filter
        Event.isAudit) = []) ∧
    ((delete_instance_task (some inst) ⟨dcr, dvr, uf, false⟩ dv).1 = none ∧
     (delete_instance_task (some inst) ⟨dcr, dvr, uf, false⟩ dv).2.1 = .ok none ∧
     ((delete_instance_task (some inst) ⟨dcr, dvr, uf, false⟩ dv).2.2.filter
        Event.isAudit) = []) := by
  refine ⟨⟨rfl, rfl, ?_⟩, ⟨rfl, rfl, ?_⟩⟩ <;>
  · simp only [delete_instance_task, List.filter_append]
    split_ifs <;> simp_all [Event.isAudit]

/-- **C10** — a successful stop mutates only the status field: the
resulting record is the input with status `stopped` and its error
message untouched; a successful restart, by contrast, both sets status
`running` and resets the error message to the empty string. -/
theorem stop_success_frame (inst : Instance) (senv : StopEnv)
    (renv : RestartEnv)
    (h : truthy inst.container_id = true)
    (hs : senv.stopResult = .ok ())
    (hr : renv.restartResult = .ok ()) :
    (stop_instance_task (some inst) senv).1 =
      some { inst with status := "stopped" } ∧
    ((stop_instance_task (some inst) senv).1.map Instance.error_message) =
      some inst.error_message ∧
    (restart_instance_task (some inst) renv).1 =
      some { inst with status := "running", error_message := "" } := by
  refine ⟨?_, ?_, ?_⟩ <;> simp [stop_instance_task, restart_instance_task, h, hs, hr]

/-- An instance stuck in status `error` although its engine id is
recorded and the engine reports the container running. -/
def c3Instance : Instance :=
  { id := 3, username := "alice", template := egTemplate, name := "",
    container_id := some "cid3cid3cid3", host_ports := [],
    status := "error", error_message := "boom", environment_vars := [],
    volume_name := none }

/-- **C3 (counterexample)** — the claim quantifies over *every* instance
with a recorded engine id, but the code's guard is
`if instance.container_id and instance.status != 'error'`: an instance
stored as `error` is never queried.  Here the engine reports `running`,
yet the stored status stays `error`, no engine query happens (empty
trace) and no correction is made. -/
theorem status_api_ignores_error_status_instances :
    c3Instance.container_id = some "cid3cid3cid3" ∧
    instance_status_api c3Instance (fun _ => "running") =
      (c3Instance,
       { status := "error", error_message := "boom", service_urls := [] },
       []) ∧
    mapDockerStatus "running" = "running" ∧
    c3Instance.status ≠ "running" := by
  decide

/-- **C3 (amended)** — for every instance with a recorded engine id
*whose stored status is not `error`*, the status-polling path queries
the engine exactly once, maps the engine status through the table
running→running, exited→stopped, created/restarting→pending,
paused→stopped, dead→error, with `not_found` and every unknown value
mapping to `error`, stores the mapped status, and emits no audit
event. -/
theorem status_api_reconciliation_amended (inst : Instance)
    (engine : String → String) (s : String)
    (h1 : truthy inst.container_id = true)
    (h2 : inst.status ≠ "error")
    (hs : status_map.lookup s = none) :
    ((instance_status_api inst engine).1).status =
      mapDockerStatus (engine (inst.container_id.getD "")) ∧
    (instance_status_api inst engine).2.2 =
      [Event.engineStatusQuery (inst.container_id.getD "")] ∧
    ((instance_status_api inst engine).2.2.filter Event.isAudit) = [] ∧
    mapDockerStatus "running" = "running" ∧
    mapDockerStatus "exited" = "stopped" ∧
    mapDockerStatus "created" = "pending" ∧
    mapDockerStatus "restarting" = "pending" ∧
    mapDockerStatus "paused" = "stopped" ∧
    mapDockerStatus "dead" = "error" ∧
    mapDockerStatus "not_found" = "error" ∧
    mapDockerStatus s = "error" := by
  refine ⟨?_, ?_, ?_, by decide, by decide, by decide, by decide, by decide,
    by decide, by decide, ?_⟩
  · simp only [instance_status_api, h1, h2, ne_eq, not_false_iff, true_and,
      if_true]
    split <;> simp_all
  · simp [instance_status_api, h1, h2]
  · simp [instance_status_api, h1, h2, Event.isAudit]
  · simp [mapDockerStatus, hs]

/-- A healthy pending instance whose engine reports `exited`. -/
def c3Instance2 : Instance :=
  { c3Instance with status := "pending", error_message := "" }

/-- Witness for **C3 (amended)**: the pending instance with engine id
`cid3cid3cid3` whose engine reports `exited` is corrected to `stopped`,
with one engine query and no audit event; `weird` is an unknown engine
value. -/
theorem status_api_reconciliation_amended_witness :
    ((instance_status_api c3Instance2 (fun _ => "exited")).1).status =
      mapDockerStatus ((fun _ : String => "exited")
        (c3Instance2.container_id.getD "")) ∧
    (instance_status_api c3Instance2 (fun _ => "exited")).2.2 =
      [Event.engineStatusQuery (c3Instance2.container_id.getD "")] ∧
    ((instance_status_api c3Instance2 (fun _ => "exited")).2.2.filter
        Event.isAudit) = [] ∧
    mapDockerStatus "running" = "running" ∧
    mapDockerStatus "exited" = "stopped" ∧
    mapDockerStatus "created" = "pending" ∧
    mapDockerStatus "restarting" = "pending" ∧
    mapDockerStatus "paused" = "stopped" ∧
    mapDockerStatus "dead" = "error" ∧
    mapDockerStatus "not_found" = "error" ∧
    mapDockerStatus "weird" = "error" :=
  status_api_reconciliation_amended c3Instance2 (fun _ => "exited") "weird"
    (by decide) (by decide) (by decide)

/-! ## Association-list lemmas for the environment merge -/

lemma lookup_eq_none_of_not_mem {α : Type} (l : List (String × α)) (k : String)
    (h : k ∉ l.map Prod.fst) : l.lookup k = none := by
  induction l with
  | nil => rfl
  | cons p rest ih =>
      simp only [List.map_cons, List.mem_cons, not_or] at h
      have hne : (k == p.1) = false := beq_eq_false_iff_ne.mpr h.1
      simp [List.lookup, hne, ih h.2]

lemma lookup_dictInsert {α : Type} (d : List (String × α)) (k k' : String)
    (v : α) :
    (dictInsert d k v).lookup k' = if k' = k then some v else d.lookup k' := by
  induction d with
  | nil =>
      by_cases hk : k' = k
      · simp [dictInsert, List.lookup, hk]
      · simp [dictInsert, List.lookup, hk, beq_eq_false_iff_ne.mpr hk]
  | cons p rest ih =>
      by_cases hp : p.1 = k
      · by_cases hk : k' = k
        · simp [dictInsert, hp, List.lookup, hk]
        · simp [dictInsert, hp, List.lookup, hk, beq_eq_false_iff_ne.mpr hk]
      · by_cases hk : k' = k
        · subst hk
          have h1 : (k' == p.1) = false :=
            beq_eq_false_iff_ne.mpr (fun h => hp h.symm)
          simp [dictInsert, hp, List.lookup, h1, ih]
        · by_cases hkp : k' = p.1
          · simp [dictInsert, hp, List.lookup, hkp, hk, ih]
          · simp [dictInsert, hp, List.lookup, hk, ih,
              beq_eq_false_iff_ne.mpr hkp]

lemma lookup_dictUpdate {α : Type} (src : List (String × α)) :
    ∀ (d : List (String × α)) (k : String),
      (src.map Prod.fst).Nodup →
      (dictUpdate d src).lookup k =
        (match src.lookup k with
         | some v => some v
         | none => d.lookup k) := by
  induction src with
  | nil => intro d k _; simp [dictUpdate]
  | cons p rest ih =>
      intro d k hnodup
      simp only [List.map_cons, List.nodup_cons] at hnodup
      have hupd : dictUpdate d (p :: rest) =
          dictUpdate (dictInsert d p.1 p.2) rest := rfl
      rw [hupd, ih _ k hnodup.2, lookup_dictInsert]
      by_cases hk : k = p.1
      · have hrest : rest.lookup p.1 = none :=
          lookup_eq_none_of_not_mem rest p.1 hnodup.1
        simp [List.lookup, hrest, hk]
      · have hne : (k == p.1) = false := beq_eq_false_iff_ne.mpr hk
        simp [List.lookup, hne, hk]

lemma merge_env_eq_updates (t i : List (String × String)) :
    merge_env t i = dictUpdate (dictUpdate [] t) i := by
  unfold merge_env
  by_cases ht : t.isEmpty
  · have : t = [] := List.isEmpty_iff.mp ht
    subst this
    by_cases hi : i.isEmpty
    · have : i = [] := List.isEmpty_iff.mp hi
      subst this
      simp [dictUpdate]
    · simp [ht, hi, dictUpdate]
  · by_cases hi : i.isEmpty
    · have : i = [] := List.isEmpty_iff.mp hi
      subst this
      simp [ht, dictUpdate]
    · simp [ht, hi]

/-- **C9** — the environment merge of `startContainer` is right-biased:
on every key, the merged map answers with the instance value when the
instance map binds the key and with the template value otherwise; in
particular `merge({A:"1",B:"2"}, {B:"3"}) = {A:"1",B:"3"}`. -/
theorem merge_env_right_biased (t i : List (String × String)) (k : String)
    (ht : (t.map Prod.fst).Nodup) (hi : (i.map Prod.fst).Nodup) :
    (merge_env t i).lookup k =
      (match i.lookup k with
       | some v => some v
       | none => t.lookup k) ∧
    merge_env [("A", "1"), ("B", "2")] [("B", "3")] =
      [("A", "1"), ("B", "3")] := by
  constructor
  · rw [merge_env_eq_updates, lookup_dictUpdate i _ k hi,
      lookup_dictUpdate t _ k ht]
    cases hik : i.lookup k <;> cases hkt : t.lookup k <;> simp [List.lookup]
  · decide

/-- Witness for **C9** at the spec's own example, read off at key `B`
(the colliding key, where the instance value `3` wins). -/
theorem merge_env_right_biased_witness :
    (merge_env [("A", "1"), ("B", "2")] [("B", "3")]).lookup "B" =
      (match [("B", "3")].lookup "B" with
       | some v => some v
       | none => [("A", "1"), ("B", "2")].lookup "B") ∧
    merge_env [("A", "1"), ("B", "2")] [("B", "3")] =
      [("A", "1"), ("B", "3")] :=
  merge_env_right_biased [("A", "1"), ("B", "2")] [("B", "3")] "B"
    (by decide) (by decide)

/-! ## Port-allocator lemmas -/

lemma randint_mem_Icc (a b r : Nat) (hab : a ≤ b) :
    randint a b r ∈ Finset.Icc a b := by
  have h : r % (b - a + 1) < b - a + 1 := Nat.mod_lt _ (Nat.succ_pos _)
  simp only [randint, Finset.mem_Icc]
  omega

lemma tryRandomPort_spec (startP endP : Nat) (used : Finset Nat)
    (vals : List Nat) (rng : Nat → Nat) :
    ∀ fuel k port k',
      tryRandomPort startP endP used vals rng fuel k = some (port, k') →
      port ∉ used ∧ port ∉ vals ∧ ∃ r, port = randint startP endP r := by
  intro fuel
  induction fuel with
  | zero => intro k port k' h; simp [tryRandomPort] at h
  | succ n ih =>
      intro k port k' h
      rw [tryRandomPort] at h
      by_cases hc : randint startP endP (rng k) ∉ used ∧
          randint startP endP (rng k) ∉ vals
      · rw [if_pos hc] at h
        obtain ⟨h1, h2⟩ := Option.some.inj h |> Prod.mk.inj
        exact h1 ▸ ⟨hc.1, hc.2, rng k, rfl⟩
      · rw [if_neg hc] at h
        exact ih (k + 1) port k' h

lemma allocGo_exhausts (startP endP : Nat) (used : Finset Nat) (origN : Nat)
    (rng : Nat → Nat) (hab : startP ≤ endP)
    (hcheck : used.card + origN > endP - startP + 1) :
    ∀ (rest : List String) (acc : List (String × Nat)) (k : Nat),
      ((Finset.Icc startP endP \ used) \ (acc.map Prod.snd).toFinset).card
          < rest.length →
      allocGo startP endP used origN rng rest acc k =
        .error (.exhausted origN
          (((endP - startP + 1 : Nat) : Int) - (used.card : Int))) := by
  intro rest
  induction rest with
  | nil => intro acc k h; exact absurd h (Nat.not_lt_zero _)
  | cons s rest ih =>
      intro acc k h
      rw [allocGo]
      cases htry : tryRandomPort startP endP used (acc.map Prod.snd) rng 100 k with
      | none =>
          simp only [htry]
          rw [if_pos hcheck]
      | some pk =>
          obtain ⟨port, k'⟩ := pk
          simp only [htry]
          obtain ⟨hnu, hnv, r, hr⟩ :=
            tryRandomPort_spec startP endP used (acc.map Prod.snd) rng 100 k
              port k' htry
          apply ih
          have hport : port ∈
              (Finset.Icc startP endP \ used) \ (acc.map Prod.snd).toFinset := by
            rw [Finset.mem_sdiff, Finset.mem_sdiff]
            exact ⟨⟨hr ▸ randint_mem_Icc startP endP r hab, hnu⟩,
              by simpa using hnv⟩
          have hfs : ((acc ++ [(s, port)]).map Prod.snd).toFinset =
              insert port ((acc.map Prod.snd).toFinset) := by
            ext x
            simp [or_comm]
          rw [hfs]
          have hsd : (Finset.Icc startP endP \ used) \
                insert port ((acc.map Prod.snd).toFinset)
              = ((Finset.Icc startP endP \ used) \
                  (acc.map Prod.snd).toFinset).erase port := by
            ext x
            simp only [Finset.mem_sdiff, Finset.mem_erase, Finset.mem_insert,
              not_or]
            tauto
          rw [hsd, Finset.card_erase_of_mem hport]
          have hpos : 0 < ((Finset.Icc startP endP \ used) \
              (acc.map Prod.snd).toFinset).card :=
            Finset.card_pos.mpr ⟨port, hport⟩
          simp only [List.length_cons] at h
          omega

/-- **C4** — with fewer free ports left in the configured range than
requested service names, `allocate_ports` — whatever the random draws
do — raises exactly the allocator's exhaustion error (the `ValueError`
carrying the need/available counts) and returns no mapping, partial or
otherwise. -/
theorem allocate_ports_exhaustion (startP endP : Nat) (used : Finset Nat)
    (port_mapping : List (String × Nat)) (rng : Nat → Nat)
    (hab : startP ≤ endP)
    (hfree : (Finset.Icc startP endP \ used).card < port_mapping.length) :
    allocate_ports startP endP used port_mapping rng =
      .error (.exhausted port_mapping.length
        (((endP - startP + 1 : Nat) : Int) - (used.card : Int))) := by
  have hIcc : (Finset.Icc startP endP).card = endP - startP + 1 := by
    rw [Nat.card_Icc]; omega
  have hsplit :=
    Finset.card_inter_add_card_sdiff (Finset.Icc startP endP) used
  have hle : (Finset.Icc startP endP ∩ used).card ≤ used.card :=
    Finset.card_le_card Finset.inter_subset_right
  have hcheck : used.card + port_mapping.length > endP - startP + 1 := by
    omega
  unfold allocate_ports
  apply allocGo_exhausts startP endP used port_mapping.length rng hab hcheck
  simpa using hfree

lemma mem_of_get?_eq_some {α : Type} {l : List α} :
    ∀ {n : Nat} {a : α}, l.get? n = some a → a ∈ l := by
  induction l with
  | nil => intro n a h; simp [List.get?] at h
  | cons x xs ih =>
      intro n a h
      cases n with
      | zero =>
          simp only [List.get?] at h
          exact (Option.some.inj h) ▸ List.mem_cons_self x xs
      | succ m => exact List.mem_cons_of_mem _ (ih h)

lemma allocGo_in_range (startP endP : Nat) (used : Finset Nat) (origN : Nat)
    (rng : Nat → Nat) (hab : startP ≤ endP) :
    ∀ (rest : List String) (acc : List (String × Nat)) (k : Nat)
      (m : List (String × Nat)),
      (∀ p ∈ acc.map Prod.snd, p ∈ Finset.Icc startP endP) →
      allocGo startP endP used origN rng rest acc k = .ok m →
      ∀ p ∈ m.map Prod.snd, p ∈ Finset.Icc startP endP := by
  intro rest
  induction rest with
  | nil =>
      intro acc k m hacc hok
      rw [allocGo] at hok
      cases hok
      exact hacc
  | cons s rest ih =>
      intro acc k m hacc hok
      cases htry : tryRandomPort startP endP used (acc.map Prod.snd) rng 100 k with
      | some pk =>
          obtain ⟨port, k'⟩ := pk
          rw [allocGo] at hok
          simp only [htry] at hok
          obtain ⟨hnu, hnv, r, hr⟩ :=
            tryRandomPort_spec startP endP used (acc.map Prod.snd) rng 100 k
              port k' htry
          refine ih (acc ++ [(s, port)]) k' m ?_ hok
          intro p hp
          rw [List.map_append] at hp
          rcases List.mem_append.mp hp with h1 | h2
          · exact hacc p h1
          · simp only [List.map_cons, List.map_nil, List.mem_singleton] at h2
            exact h2 ▸ hr ▸ randint_mem_Icc startP endP r hab
      | none =>
          rw [allocGo] at hok
          simp only [htry] at hok
          by_cases hc : used.card + origN > endP - startP + 1
          · rw [if_pos hc] at hok
            exact absurd hok (by simp)
          · rw [if_neg hc] at hok
            set L := ((Finset.Icc startP endP \ used) \
                (acc.map Prod.snd).toFinset).sort (· ≤ ·) with hL
            cases hget : L.get? (rng k % L.length) with
            | none =>
                rw [hget] at hok
                exact absurd hok (by simp)
            | some port =>
                rw [hget] at hok
                have hmemL : port ∈ L := mem_of_get?_eq_some hget
                have hmemF : port ∈ (Finset.Icc startP endP \ used) \
                    (acc.map Prod.snd).toFinset := (Finset.mem_sort _).mp hmemL
                have hIcc : port ∈ Finset.Icc startP endP :=
                  (Finset.mem_sdiff.mp (Finset.mem_sdiff.mp hmemF).1).1
                refine ih (acc ++ [(s, port)]) (k + 1) m ?_ hok
                intro p hp
                rw [List.map_append] at hp
                rcases List.mem_append.mp hp with h1 | h2
                · exact hacc p h1
                · simp only [List.map_cons, List.map_nil,
                    List.mem_singleton] at h2
                  exact h2 ▸ hIcc

/-- Witness for **C4**: range `[10, 11]` with both ports held and one
requested name — with the constant-zero random oracle the call returns
exactly the exhaustion error. -/
theorem allocate_ports_exhaustion_witness :
    allocate_ports 10 11 ({10, 11} : Finset Nat) [("web", 8080)]
        (fun _ => 0) =
      .error (.exhausted ([("web", 8080)] : List (String × Nat)).length
        (((11 - 10 + 1 : Nat) : Int) -
          ((({10, 11} : Finset Nat)).card : Int))) :=
  allocate_ports_exhaustion 10 11 {10, 11} [("web", 8080)] (fun _ => 0)
    (by decide) (by decide)

/-- **C5** — every port handed out by the allocator lies inside the
inclusive configured range: each value of a successful `allocate_ports`
mapping (random path and fallback path alike) and every successful
`get_available_port` answer is in `[startP, endP]`. -/
theorem port_allocator_stays_in_range (startP endP : Nat) (used : Finset Nat)
    (port_mapping : List (String × Nat)) (rng : Nat → Nat)
    (m : List (String × Nat)) (q gp : Nat)
    (hab : startP ≤ endP)
    (halloc : allocate_ports startP endP used port_mapping rng = .ok m)
    (hgp : get_available_port startP endP used q = .ok gp) :
    ((m.map Prod.snd).all (fun p => decide (startP ≤ p ∧ p ≤ endP)) = true) ∧
    (startP ≤ gp ∧ gp ≤ endP) := by
  constructor
  · rw [List.all_eq_true]
    intro p hp
    rw [decide_eq_true_eq]
    unfold allocate_ports at halloc
    have hmem := allocGo_in_range startP endP used port_mapping.length rng hab
      (port_mapping.map Prod.fst) [] 0 m (by simp) halloc p hp
    exact Finset.mem_Icc.mp hmem
  · unfold get_available_port at hgp
    by_cases hempty : (Finset.Icc startP endP \ used) = ∅
    · rw [if_pos hempty] at hgp
      exact absurd hgp (by simp)
    · rw [if_neg hempty] at hgp
      simp only [] at hgp
      set L := (Finset.Icc startP endP \ used).sort (· ≤ ·) with hL
      cases hg : L.get? (q % L.length) with
      | none =>
          rw [hg] at hgp
          exact absurd hgp (by simp)
      | some p =>
          rw [hg] at hgp
          have hpe : p = gp := Except.ok.inj hgp
          have hmem : p ∈ Finset.Icc startP endP :=
            (Finset.mem_sdiff.mp
              ((Finset.mem_sort _).mp (mem_of_get?_eq_some hg))).1
          exact hpe ▸ Finset.mem_Icc.mp hmem

/-- Witness for **C5**: range `[10, 12]` with `11` and `12` held and the
constant-zero oracle — the allocator returns port `10` for the one
service and the single-port entry point returns `10`; both inside the
range. -/
theorem port_allocator_stays_in_range_witness :
    ((([("web", 10)] : List (String × Nat)).map Prod.snd).all
        (fun p => decide (10 ≤ p ∧ p ≤ 12)) = true) ∧
    (10 ≤ 10 ∧ 10 ≤ 12) :=
  port_allocator_stays_in_range 10 12 {11, 12} [("web", 8080)] (fun _ => 0)
    [("web", 10)] 0 10 (by decide) (by rfl)
    (by
      have h : (Finset.Icc 10 12 \ ({11, 12} : Finset Nat)) = {10} := by
        decide
      simp [get_available_port, h, Finset.sort_singleton])

/-- An instance without a recorded engine id. -/
def c7Instance : Instance :=
  { id := 7, username := "bob", template := egTemplate, name := "",
    container_id := none, host_ports := [], status := "running",
    error_message := "", environment_vars := [], volume_name := none }

/-- The same instance with an engine id recorded. -/
def c7Instance2 : Instance :=
  { c7Instance with container_id := some "abc123" }

/-- Witness for **C7**: stop without an engine id answers the
"no container" error and leaves the record as it was; a stop whose
driver call fails with `engine down` records that message and keeps the
status `running`. -/
theorem stop_failure_leaves_status_unchanged_witness :
    stop_instance_task (some c7Instance) ⟨.ok ()⟩ =
      (some c7Instance, .err "No container ID found", []) ∧
    stop_instance_task (some c7Instance2) ⟨.error "engine down"⟩ =
      (some { c7Instance2 with error_message := "engine down" },
       .err "engine down",
       [Event.stopContainer (c7Instance2.container_id.getD "")]) ∧
    ({ c7Instance2 with error_message := "engine down" } : Instance).status =
      c7Instance2.status :=
  stop_failure_leaves_status_unchanged c7Instance c7Instance2
    ⟨.ok ()⟩ ⟨.error "engine down"⟩ "engine down"
    (by decide) (by decide) rfl

/-- An instance with an engine id and a leftover error message. -/
def c10Instance : Instance :=
  { c7Instance with
    container_id := some "runcid"
    error_message := "old error" }

/-- Witness for **C10**: a successful stop of the instance only flips
its status to `stopped` and keeps the leftover error message `old
error`, while a successful restart resets the message to empty. -/
theorem stop_success_frame_witness :
    (stop_instance_task (some c10Instance) ⟨.ok ()⟩).1 =
      some { c10Instance with status := "stopped" } ∧
    ((stop_instance_task (some c10Instance) ⟨.ok ()⟩).1.map
        Instance.error_message) = some c10Instance.error_message ∧
    (restart_instance_task (some c10Instance) ⟨.ok ()⟩).1 =
      some { c10Instance with status := "running", error_message := "" } :=
  stop_success_frame c10Instance ⟨.ok ()⟩ ⟨.ok ()⟩ (by decide) rfl rfl

/-- Witness for **C6**: deleting the concrete instance removes its
record and succeeds; a second delete on the now-absent record makes no
engine call, writes no audit event, and reports the instance as not
found. -/
theorem delete_task_idempotent_witness :
    (delete_instance_task (some c10Instance)
        ⟨.ok (), .ok (), true, true⟩ false).1 = none ∧
    (delete_instance_task (some c10Instance)
        ⟨.ok (), .ok (), true, true⟩ false).2.1 = .ok none ∧
    delete_instance_task none ⟨.ok (), .ok (), true, true⟩ false =
      (none, .err "Instance not found", []) :=
  delete_task_idempotent c10Instance ⟨.ok (), .ok (), true, true⟩
    ⟨.ok (), .ok (), true, true⟩ false false

/-- Witness for **C8**: with the actor lookup failing (and, in the
second run, the audit write failing), deleting the concrete instance
still removes the record, succeeds, and writes no audit event. -/
theorem delete_audit_never_blocks_witness :
    ((delete_instance_task (some c7Instance2)
        ⟨.ok (), .ok (), false, true⟩ true).1 = none ∧
     (delete_instance_task (some c7Instance2)
        ⟨.ok (), .ok (), false, true⟩ true).2.1 = .ok none ∧
     ((delete_instance_task (some c7Instance2)
        ⟨.ok (), .ok (), false, true⟩ true).2.2.filter Event.isAudit) = []) ∧
    ((delete_instance_task (some c7Instance2)
        ⟨.ok (), .ok (), true, false⟩ true).1 = none ∧
     (delete_instance_task (some c7Instance2)
        ⟨.ok (), .ok (), true, false⟩ true).2.1 = .ok none ∧
     ((delete_instance_task (some c7Instance2)
        ⟨.ok (), .ok (), true, false⟩ true).2.2.filter Event.isAudit) = []) :=
  delete_audit_never_blocks c7Instance2 (.ok ()) (.ok ()) true true true
